import Mathlib

/-!
Shallow embedding of the per-URL qualification pipeline of `src/main.js`
(URL normalization, content extraction, retrying model call, defensive
response parsing, sequential aggregation) together with theorems about it.

JS strings are modelled as Lean `String` (a wrapper around `List Char`);
the JS string primitives used by the source are re-implemented below on
`String.data` so that all definitions are executable and decidable.
-/

namespace Qualifier

/-- Embedding of JS `String.prototype.trim`: drop whitespace from both ends. -/
def jsTrim (s : String) : String :=
  String.mk (((s.data.dropWhile Char.isWhitespace).reverse.dropWhile Char.isWhitespace).reverse)

/-- Embedding of JS `s.slice(0, -1)`: drop the last character. -/
def dropLastChar (s : String) : String :=
  String.mk s.data.dropLast

/-- Embedding of JS `s.startsWith(pre)`. -/
def jsStartsWith (s pre : String) : Bool :=
  pre.data.isPrefixOf s.data

/-- Embedding of JS `s.endsWith(c)` for a single-character suffix. -/
def jsEndsWithChar (s : String) (c : Char) : Bool :=
  s.data.getLast? == some c

/-- Does `sub` occur as a contiguous sublist of `l`? -/
def hasInfix : List Char → List Char → Bool
  | l, sub =>
    match l with
    | [] => sub.isEmpty
    | c :: t => sub.isPrefixOf (c :: t) || hasInfix t sub

/-- Embedding of JS `s.includes(sub)`. -/
def jsIncludes (s sub : String) : Bool :=
  hasInfix s.data sub.data

/-- The first two normalization steps of `scrapeWebsite`
(src/main.js lines 81-84): trim, then strip exactly one trailing slash. -/
def preNormalize (url : String) : String :=
  let t := jsTrim url
  if jsEndsWithChar t '/' then dropLastChar t else t

/-- URL normalization, embedded from the head of `scrapeWebsite`
(src/main.js lines 81-87): trim, strip exactly one trailing slash,
prepend `https://` when no scheme prefix is present. -/
def normalizeUrl (url : String) : String :=
  let t2 := preNormalize url
  if jsStartsWith t2 "http://" || jsStartsWith t2 "https://" then t2
  else "https://" ++ t2

example : normalizeUrl "example.com/" = "https://example.com" := by decide
example : normalizeUrl "example.com//" = "https://example.com/" := by decide
example : normalizeUrl "" = "https://" := by decide
example : normalizeUrl " http://x.com " = "http://x.com" := by decide

/-- Primitive JSON values as they appear in the parsed model response.
Composite values (arrays, nested objects) and non-integral numbers are
outside the scope of this model; the source never constructs them itself. -/
inductive JsonVal where
  | num (n : Int)
  | str (s : String)
  | boolv (b : Bool)
  | nullv
deriving DecidableEq, Repr

/-- JS truthiness on a field value; `Option.none` stands for an absent
field (`undefined`), which is falsy. -/
def truthy : Option JsonVal → Bool
  | none => false
  | some (.num n) => n != 0
  | some (.str s) => s != ""
  | some (.boolv b) => b
  | some .nullv => false

/-- Embedding of the JS idiom `v || dflt`. -/
def jsOrDefault (v : Option JsonVal) (dflt : JsonVal) : JsonVal :=
  if truthy v then v.getD dflt else dflt

/-- Value of a nonempty decimal digit string. -/
def digitsVal (l : List Char) : Nat :=
  l.foldl (fun a c => a * 10 + (c.toNat - 48)) 0

/-- Embedding of JS `parseInt` on a string (radix 10): skip leading
whitespace, optional sign, then the maximal digit prefix; `none` is NaN. -/
def parseIntStr (s : String) : Option Int :=
  let t := s.data.dropWhile Char.isWhitespace
  let signed : Int × List Char :=
    match t with
    | '-' :: r => (-1, r)
    | '+' :: r => (1, r)
    | r => (1, r)
  let ds := signed.2.takeWhile Char.isDigit
  if ds.isEmpty then none else some (signed.1 * (digitsVal ds : Int))

/-- Embedding of JS `parseInt` on a field value (`none` result is NaN):
numbers pass through, strings are parsed, everything else is NaN. -/
def jsParseInt : Option JsonVal → Option Int
  | some (.num n) => some n
  | some (.str s) => parseIntStr s
  | _ => none

/-- Embedding of `parseInt(result.score) || 0` (src/main.js line 263):
NaN collapses to 0 via `||`; a parsed 0 is falsy and also yields 0. -/
def scoreOf (v : Option JsonVal) : Int :=
  match jsParseInt v with
  | none => 0
  | some n => if n = 0 then 0 else n

/-- The fields the classifier reads from the parsed model response
(each possibly absent). -/
structure RespObj where
  verdict : Option JsonVal
  score : Option JsonVal
  reason : Option JsonVal
deriving DecidableEq, Repr

/-- Abstraction of the model's textual response, characterised by how
`JSON.parse` and the `\x7b[\s\S]*\x7d` regex fallback behave on it
(src/main.js lines 248-258): direct parse succeeds, only the extracted
brace substring parses, or both attempts fail. -/
inductive RespText where
  | parses (obj : RespObj)
  | braceParses (obj : RespObj)
  | unparseable
deriving DecidableEq, Repr

/-- A completion returned by the model client; the payload is the content
of `choices[0]`, with `none` when that content is absent or empty
(both are falsy for the `!responseText` check). -/
def CompletionObj : Type := Option RespText

/-- Result record of the classifier (`url`, `verdict`, `score`, `reason`);
`verdict` and `reason` are raw JSON values because the source stores
whatever the model returned without validation. -/
structure ClassificationResult where
  url : String
  verdict : JsonVal
  score : Int
  reason : JsonVal
deriving DecidableEq, Repr

/-- The six fields the in-page extraction callback returns
(src/main.js lines 136-143). -/
structure PageContent where
  title : String
  metaDescription : String
  h1 : String
  headings : String
  bodyText : String
  heroText : String
deriving DecidableEq, Repr

/-- Outcome of the navigation-and-extraction phase for one URL: either the
extracted fields, or the message of the navigation/timeout/DOM error the
`try` block caught. -/
inductive ScrapeOutcome where
  | page (c : PageContent)
  | fail (msg : String)
deriving DecidableEq, Repr

/-- ScrapeResult record (src/main.js lines 156-180); `error` is absent on
success. -/
structure ScrapeResult where
  url : String
  content : String
  title : String
  success : Bool
  error : Option String
deriving DecidableEq, Repr

/-- Embedding of `[...].filter(Boolean).join(sep)`: keep the truthy
(nonempty) strings and interleave the separator. -/
def joinTruthy (sep : String) (l : List String) : String :=
  String.intercalate sep (l.filter (fun s => s != ""))

/-- Embedding of a JS template interpolation `${o}` of a possibly
undefined value. -/
def jsInterpOpt : Option String → String
  | none => "undefined"
  | some s => s

/-- Embedding of `scrapeWebsite` (src/main.js lines 80-186), with the
browser interaction abstracted into a `ScrapeOutcome`: on success the
fields are concatenated in source order and the under-50-characters
check applies; on failure the record keeps the raw (unnormalized) URL. -/
def scrapeWebsite (url : String) (outcome : ScrapeOutcome) : ScrapeResult :=
  let normalizedUrl := normalizeUrl url
  match outcome with
  | .fail msg =>
      { url := url, content := "", title := "", success := false,
        error := some ("Scraping failed: " ++ msg) }
  | .page c =>
      let scrapedContent := joinTruthy "\n\n"
        [c.title, c.metaDescription, c.h1, c.headings, c.heroText, c.bodyText]
      if scrapedContent.length < 50 then
        { url := normalizedUrl, content := "", title := "", success := false,
          error := some "Insufficient content scraped - page may be empty or blocked" }
      else
        { url := normalizedUrl, content := scrapedContent, title := c.title,
          success := true, error := none }

/-- Failure classification of `withRetry` (src/main.js lines 194-195):
rate limiting (`rate_limit` marker or HTTP 429) or transient server error
(HTTP 500/503). -/
def isRetryableError (msg : String) : Bool :=
  (jsIncludes msg "rate_limit" || jsIncludes msg "429") ||
  (jsIncludes msg "500" || jsIncludes msg "503")

/-- Observable behaviour of one `withRetry` run: how many times the
operation was invoked, the backoff waits performed (in order, in ms), and
the returned value — `Except.error` for a re-raised failure, `.ok none`
for the implicit `undefined` when the loop body never runs. -/
structure RetryTrace (α : Type) where
  calls : Nat
  delays : List Nat
  result : Except String (Option α)
deriving Repr

/-- One iteration of the `for (attempt = 1; attempt <= maxRetries; ...)`
loop of `withRetry` (src/main.js lines 189-206). `fn k` is the outcome of
the k-th invocation of the operation (1-indexed); `remaining` counts the
iterations the loop guard still allows, so the guard failing is the
`remaining = 0` case, which falls off the function and returns
`undefined`. -/
def withRetryFrom (fn : Nat → Except String α) (maxRetries baseDelay : Nat) :
    Nat → Nat → RetryTrace α
  | _, 0 => ⟨0, [], .ok none⟩
  | attempt, remaining + 1 =>
    match fn attempt with
    | .ok v => ⟨1, [], .ok (some v)⟩
    | .error e =>
      if attempt = maxRetries || !(isRetryableError e) then ⟨1, [], .error e⟩
      else
        let delay := baseDelay * 2 ^ (attempt - 1)
        let rest := withRetryFrom fn maxRetries baseDelay (attempt + 1) remaining
        ⟨rest.calls + 1, delay :: rest.delays, rest.result⟩

/-- Embedding of `withRetry` (src/main.js lines 189-206). -/
def withRetry (fn : Nat → Except String α) (maxRetries baseDelay : Nat) :
    RetryTrace α :=
  withRetryFrom fn maxRetries baseDelay 1 maxRetries

/-- Defensive field mapping of the parsed model response
(src/main.js lines 260-265). -/
def mapParsed (url : String) (obj : RespObj) : ClassificationResult :=
  { url := url,
    verdict := jsOrDefault obj.verdict (.str "DISQUALIFY"),
    score := scoreOf obj.score,
    reason := jsOrDefault obj.reason (.str "Unable to determine qualification.") }

/-- The `try` block of `qualifyWebsite` (src/main.js lines 210-265):
short-circuit on short content, the retry-wrapped model call, the
missing-response throw, the two-stage parse, and the defensive field
mapping. `attempts k` is the outcome of the k-th model invocation.
`Except.error` is a raised JS exception; the message of the property
access on an `undefined` completion is the V8 TypeError text (quotes
elided). -/
def qualifyTry (url : String) (scrapedContent : String)
    (attempts : Nat → Except String CompletionObj) (maxRetries : Nat) :
    Except String ClassificationResult :=
  if scrapedContent == "" || scrapedContent.length < 20 then
    .ok { url := url, verdict := .str "DISQUALIFY", score := 0,
          reason := .str "Website inaccessible or no product description found." }
  else
    match (withRetry attempts maxRetries 2000).result with
    | .error e => .error e
    | .ok none => .error "Cannot read properties of undefined (reading choices)"
    | .ok (some completion) =>
      match completion with
      | none => .error "No response from AI"
      | some respText =>
        match respText with
        | .parses obj => .ok (mapParsed url obj)
        | .braceParses obj => .ok (mapParsed url obj)
        | .unparseable => .error "Failed to parse AI response as JSON"

/-- The `catch` handler of `qualifyWebsite` (src/main.js lines 267-275). -/
def qualifyCatch (url : String) (e : String) : ClassificationResult :=
  { url := url, verdict := .str "DISQUALIFY", score := 0,
    reason := .str ("Error: " ++ e) }

/-- Embedding of `qualifyWebsite` (src/main.js lines 209-276) as seen by
its caller: the whole body wrapped in `try`/`catch`, so a raised result
(`Except.error`) would mean an exception escaping to the caller. -/
def qualifyWebsiteE (url : String) (scrapedContent : String)
    (attempts : Nat → Except String CompletionObj) (maxRetries : Nat) :
    Except String ClassificationResult :=
  match qualifyTry url scrapedContent attempts maxRetries with
  | .ok r => .ok r
  | .error e => .ok (qualifyCatch url e)

/-- The value `qualifyWebsite` hands back to the orchestrator. -/
def qualifyWebsite (url : String) (scrapedContent : String)
    (attempts : Nat → Except String CompletionObj) (maxRetries : Nat) :
    ClassificationResult :=
  match qualifyTry url scrapedContent attempts maxRetries with
  | .ok r => r
  | .error e => qualifyCatch url e

/-- Per-URL environment: the outcome of the browser interaction and the
outcomes of the successive model-call invocations for that URL. -/
structure UrlEnv where
  scrape : ScrapeOutcome
  attempts : Nat → Except String CompletionObj

/-- One iteration of the orchestrator loop body (src/main.js
lines 315-356): scrape, then either synthesize a failure record or
classify. -/
def processUrl (url : String) (e : UrlEnv) (maxRetries : Nat) :
    ClassificationResult :=
  let scraped := scrapeWebsite url e.scrape
  if scraped.success then
    qualifyWebsite url scraped.content e.attempts maxRetries
  else
    { url := url, verdict := .str "DISQUALIFY", score := 0,
      reason := .str ("Website inaccessible or no product description found. Error: "
        ++ jsInterpOpt scraped.error) }

/-- The orchestrator loop: returns the in-memory `results` sequence and
the sequence of records pushed to the dataset, in push order. Both
branches of the body push the same record to both. -/
def mainLoop (env : Nat → UrlEnv) (maxRetries : Nat) :
    List String → Nat → List ClassificationResult × List ClassificationResult
  | [], _ => ([], [])
  | url :: rest, i =>
    let r := processUrl url (env i) maxRetries
    let tail := mainLoop env maxRetries rest (i + 1)
    (r :: tail.1, r :: tail.2)

/-- The final OUTPUT record (src/main.js lines 366-371). -/
structure RunSummary where
  total : Nat
  qualified : Nat
  disqualified : Nat
  results : List ClassificationResult
deriving Repr

/-- Embedding of the core of `main` (src/main.js lines 315-371): run the
loop over the URLs, count strict-equality matches of the verdict against
the two verdict strings, and emit the summary; the second component is
the dataset (persisted records) in push order. -/
def mainRun (urls : List String) (env : Nat → UrlEnv) (maxRetries : Nat) :
    RunSummary × List ClassificationResult :=
  let rd := mainLoop env maxRetries urls 0
  let qualified := (rd.1.filter (fun r => r.verdict == .str "QUALIFY")).length
  let disqualified := (rd.1.filter (fun r => r.verdict == .str "DISQUALIFY")).length
  (⟨urls.length, qualified, disqualified, rd.1⟩, rd.2)

/-! Helper lemmas about the string primitives. -/

lemma isPrefixOf_append_self (l m : List Char) : l.isPrefixOf (l ++ m) = true := by
  induction l with
  | nil => simp
  | cons c t ih => simp [List.isPrefixOf, ih]

lemma exists_suffix_of_isPrefixOf :
    ∀ {l m : List Char}, l.isPrefixOf m = true → ∃ t, m = l ++ t := by
  intro l
  induction l with
  | nil => exact fun h => ⟨_, rfl⟩
  | cons c t ih =>
    intro m h
    cases m with
    | nil => simp [List.isPrefixOf] at h
    | cons b bs =>
      simp only [List.isPrefixOf, Bool.and_eq_true, beq_iff_eq] at h
      obtain ⟨u, hu⟩ := ih h.2
      exact ⟨u, by rw [h.1, hu]; rfl⟩

lemma data_ne_nil_of_ne_empty {s : String} (h : s ≠ "") : s.data ≠ [] := by
  intro hn
  exact h (String.ext hn)

lemma normalizeUrl_eq (s : String) :
    normalizeUrl s =
      if jsStartsWith (preNormalize s) "http://" || jsStartsWith (preNormalize s) "https://"
      then preNormalize s else "https://" ++ preNormalize s := rfl

lemma normalizeUrl_scheme (s : String) :
    (jsStartsWith (normalizeUrl s) "http://" ||
     jsStartsWith (normalizeUrl s) "https://") = true := by
  rw [normalizeUrl_eq]
  split
  next h => exact h
  next h => simp [jsStartsWith, isPrefixOf_append_self]

lemma normalizeUrl_no_slash (s : String)
    (h1 : jsEndsWithChar (preNormalize s) '/' = false)
    (h2 : preNormalize s ≠ "") :
    jsEndsWithChar (normalizeUrl s) '/' = false := by
  rw [normalizeUrl_eq]
  split
  next => exact h1
  next =>
    simp only [jsEndsWithChar, String.data_append] at h1 ⊢
    rw [List.getLast?_append_of_ne_nil _ (data_ne_nil_of_ne_empty h2)]
    exact h1

lemma normalizeUrl_data_head (s : String) : ∃ t, (normalizeUrl s).data = 'h' :: t := by
  have h := normalizeUrl_scheme s
  rcases Bool.or_eq_true_iff.mp h with h' | h'
  · obtain ⟨t, ht⟩ := exists_suffix_of_isPrefixOf h'
    have he : "http://".data = 'h' :: "ttp://".data := rfl
    rw [he] at ht
    exact ⟨_, ht⟩
  · obtain ⟨t, ht⟩ := exists_suffix_of_isPrefixOf h'
    have he : "https://".data = 'h' :: "ttps://".data := rfl
    rw [he] at ht
    exact ⟨_, ht⟩

lemma jsTrim_eq_self {s : String} (hhead : ∃ t, s.data = 'h' :: t)
    (hlast : ∀ c, s.data.getLast? = some c → c.isWhitespace = false) :
    jsTrim s = s := by
  obtain ⟨t, ht⟩ := hhead
  have hws : 'h'.isWhitespace = false := by decide
  have h1 : s.data.dropWhile Char.isWhitespace = s.data := by
    rw [ht, List.dropWhile_cons, hws]
    simp
  have h2 : s.data.reverse.dropWhile Char.isWhitespace = s.data.reverse := by
    cases hr : s.data.reverse with
    | nil => rfl
    | cons c cs =>
      have hc : s.data.getLast? = some c := by
        rw [List.getLast?_eq_head?_reverse, hr]
        rfl
      rw [List.dropWhile_cons, hlast c hc]
      simp
  unfold jsTrim
  rw [h1, h2, List.reverse_reverse]

lemma normalizeUrl_idem (s : String)
    (h1 : jsEndsWithChar (normalizeUrl s) '/' = false)
    (h2 : ∀ c, (normalizeUrl s).data.getLast? = some c → c.isWhitespace = false) :
    normalizeUrl (normalizeUrl s) = normalizeUrl s := by
  have htrim : jsTrim (normalizeUrl s) = normalizeUrl s :=
    jsTrim_eq_self (normalizeUrl_data_head s) h2
  have hpre : preNormalize (normalizeUrl s) = normalizeUrl s := by
    simp [preNormalize, htrim, h1]
  rw [normalizeUrl_eq (normalizeUrl s), hpre, normalizeUrl_scheme s]
  simp

/-- Claim C4, counterexample: the normalizer strips exactly one trailing
slash, so the input "example.com//" normalizes to "https://example.com/",
which still ends with a slash — the claimed no-trailing-slash guarantee
fails. -/
theorem c4_counterexample :
    normalizeUrl "example.com//" = "https://example.com/" ∧
    jsEndsWithChar (normalizeUrl "example.com//") '/' = true := by
  decide

/-- Claim C4 (amended): the normalized URL always starts with "http://"
or "https://"; it has no trailing slash provided that stripping one
trailing slash from the trimmed input leaves a nonempty string that does
not itself end with a slash. -/
theorem c4_normalized_url_shape (s : String) :
    (jsStartsWith (normalizeUrl s) "http://" ||
     jsStartsWith (normalizeUrl s) "https://") = true ∧
    (jsEndsWithChar (preNormalize s) '/' = false → preNormalize s ≠ "" →
      jsEndsWithChar (normalizeUrl s) '/' = false) :=
  ⟨normalizeUrl_scheme s, fun h1 h2 => normalizeUrl_no_slash s h1 h2⟩

/-- Witness for C4 at the concrete input "example.com". -/
theorem c4_normalized_url_shape_witness :
    (jsStartsWith (normalizeUrl "example.com") "http://" ||
     jsStartsWith (normalizeUrl "example.com") "https://") = true ∧
    jsEndsWithChar (normalizeUrl "example.com") '/' = false :=
  ⟨(c4_normalized_url_shape "example.com").1,
   (c4_normalized_url_shape "example.com").2 (by decide) (by decide)⟩

/-- Claim C5, counterexample: normalization is not idempotent — the
input "example.com//" normalizes to "https://example.com/" and a second
normalization strips the remaining slash, giving "https://example.com". -/
theorem c5_counterexample :
    normalizeUrl (normalizeUrl "example.com//") ≠ normalizeUrl "example.com//" ∧
    normalizeUrl "example.com//" = "https://example.com/" ∧
    normalizeUrl (normalizeUrl "example.com//") = "https://example.com" := by
  refine ⟨?_, by decide, by decide⟩
  decide

/-- Claim C5 (amended): normalization is idempotent on every input whose
normalized form neither ends with a slash nor ends with a whitespace
character (every normalized URL in the intended sense satisfies this);
and "example.com/" normalizes to "https://example.com". -/
theorem c5_normalize_idempotent (s : String)
    (h1 : jsEndsWithChar (normalizeUrl s) '/' = false)
    (h2 : ∀ c, (normalizeUrl s).data.getLast? = some c → c.isWhitespace = false) :
    normalizeUrl (normalizeUrl s) = normalizeUrl s ∧
    normalizeUrl "example.com/" = "https://example.com" :=
  ⟨normalizeUrl_idem s h1 h2, by decide⟩

/-! Step lemmas for the retry loop. -/

lemma withRetryFrom_zero (fn : Nat → Except String α) (mr bd attempt : Nat) :
    withRetryFrom fn mr bd attempt 0 = ⟨0, [], .ok none⟩ := by
  simp [withRetryFrom]

lemma withRetryFrom_ok (fn : Nat → Except String α) (mr bd attempt r : Nat) (v : α)
    (h : fn attempt = .ok v) :
    withRetryFrom fn mr bd attempt (r + 1) = ⟨1, [], .ok (some v)⟩ := by
  simp only [withRetryFrom]
  rw [h]

lemma withRetryFrom_err_last (fn : Nat → Except String α) (mr bd r : Nat) (e : String)
    (h : fn mr = .error e) :
    withRetryFrom fn mr bd mr (r + 1) = ⟨1, [], .error e⟩ := by
  simp only [withRetryFrom]
  rw [h]
  simp

lemma withRetryFrom_err_noretry (fn : Nat → Except String α) (mr bd attempt r : Nat)
    (e : String) (h : fn attempt = .error e) (hre : isRetryableError e = false) :
    withRetryFrom fn mr bd attempt (r + 1) = ⟨1, [], .error e⟩ := by
  simp only [withRetryFrom]
  rw [h]
  simp [hre]

lemma withRetryFrom_err_retry (fn : Nat → Except String α) (mr bd attempt r : Nat)
    (e : String) (h : fn attempt = .error e) (hne : attempt ≠ mr)
    (hre : isRetryableError e = true) :
    withRetryFrom fn mr bd attempt (r + 1) =
      ⟨(withRetryFrom fn mr bd (attempt + 1) r).calls + 1,
       bd * 2 ^ (attempt - 1) :: (withRetryFrom fn mr bd (attempt + 1) r).delays,
       (withRetryFrom fn mr bd (attempt + 1) r).result⟩ := by
  simp only [withRetryFrom]
  rw [h]
  simp [hne, hre]

lemma withRetry_first_ok (fn : Nat → Except String α) (mr bd : Nat) (v : α)
    (hmr : 1 ≤ mr) (h : fn 1 = .ok v) :
    withRetry fn mr bd = ⟨1, [], .ok (some v)⟩ := by
  obtain ⟨k, rfl⟩ : ∃ k, mr = k + 1 := ⟨mr - 1, by omega⟩
  exact withRetryFrom_ok fn (k + 1) bd 1 k v h

lemma withRetryFrom_exhaust (fn : Nat → Except String α) (mr bd : Nat) (e : String)
    (hlast : fn mr = .error e) :
    ∀ r attempt, attempt + r = mr + 1 → attempt ≤ mr →
    (∀ k, attempt ≤ k → k < mr → ∃ e', fn k = .error e' ∧ isRetryableError e' = true) →
    (withRetryFrom fn mr bd attempt r).calls = r ∧
    (withRetryFrom fn mr bd attempt r).delays.length = r - 1 ∧
    (withRetryFrom fn mr bd attempt r).result = .error e := by
  intro r
  induction r with
  | zero =>
    intro attempt h1 h2 _
    exact absurd h1 (by omega)
  | succ r ih =>
    intro attempt h1 h2 hall
    by_cases hmr : attempt = mr
    · have hr0 : r = 0 := by omega
      subst hr0
      subst hmr
      rw [withRetryFrom_err_last fn attempt bd 0 e hlast]
      exact ⟨rfl, rfl, rfl⟩
    · have hlt : attempt < mr := by omega
      obtain ⟨e', he', hre'⟩ := hall attempt le_rfl hlt
      rw [withRetryFrom_err_retry fn mr bd attempt r e' he' hmr hre']
      obtain ⟨hc, hd, hres⟩ :=
        ih (attempt + 1) (by omega) (by omega) (fun k hk1 hk2 => hall k (by omega) hk2)
      refine ⟨by simp [hc], ?_, hres⟩
      simp only [List.length_cons, hd]
      omega

/-- Witness for C5 at the concrete input "example.com/". -/
theorem c5_normalize_idempotent_witness :
    normalizeUrl (normalizeUrl "example.com/") = normalizeUrl "example.com/" :=
  (c5_normalize_idempotent "example.com/" (by decide)
    (fun c hc => by
      have h : (normalizeUrl "example.com/").data.getLast? = some 'm' := by decide
      rw [h] at hc
      injection hc with h'
      rw [← h']
      decide)).1

/-- Claim C8: with maxRetries = 3 and baseDelay = 2000, an operation that
fails with a rate-limit-flavoured error on attempts 1 and 2 and succeeds
on attempt 3 is invoked exactly 3 times; the executor waits 2000 ms after
the first failure and 4000 ms after the second (baseDelay × 2^(k-1) after
the k-th failure), and returns the third invocation's result. -/
theorem c8_retry_backoff_schedule {α : Type} (fn : Nat → Except String α)
    (v : α) (e1 e2 : String)
    (hf1 : fn 1 = .error e1) (hf2 : fn 2 = .error e2) (hf3 : fn 3 = .ok v)
    (hr1 : isRetryableError e1 = true) (hr2 : isRetryableError e2 = true) :
    withRetry fn 3 2000 = ⟨3, [2000, 4000], .ok (some v)⟩ := by
  unfold withRetry
  rw [withRetryFrom_err_retry fn 3 2000 1 2 e1 hf1 (by decide) hr1]
  norm_num
  rw [withRetryFrom_err_retry fn 3 2000 2 1 e2 hf2 (by decide) hr2]
  norm_num
  rw [withRetryFrom_ok fn 3 2000 3 0 v hf3]
  simp

/-- Witness for C8: a concrete operation failing with "429" and then
"rate_limit hit" before succeeding with the value 42. -/
theorem c8_retry_backoff_schedule_witness :
    withRetry
      (fun n => if n = 1 then .error "429" else if n = 2 then .error "rate_limit hit"
                else .ok (42 : Nat)) 3 2000 = ⟨3, [2000, 4000], .ok (some 42)⟩ :=
  c8_retry_backoff_schedule
    (fun n => if n = 1 then .error "429" else if n = 2 then .error "rate_limit hit"
              else .ok (42 : Nat))
    42 "429" "rate_limit hit" rfl rfl rfl (by decide) (by decide)

/-- Claim C9: a failure that is not classified recoverable is re-raised
after exactly one invocation with no delay; and when the last allowed
attempt fails (all earlier attempts having failed recoverably), the
failure is re-raised with no delay after it — the executor performs
exactly maxRetries - 1 waits. -/
theorem c9_retry_raise_behaviour :
    (∀ (α : Type) (fn : Nat → Except String α) (mr bd : Nat) (e : String),
        1 ≤ mr → fn 1 = .error e → isRetryableError e = false →
        withRetry fn mr bd = ⟨1, [], .error e⟩) ∧
    (∀ (α : Type) (fn : Nat → Except String α) (mr bd : Nat) (e : String),
        1 ≤ mr →
        (∀ k, 1 ≤ k → k < mr → ∃ e', fn k = .error e' ∧ isRetryableError e' = true) →
        fn mr = .error e →
        (withRetry fn mr bd).calls = mr ∧
        (withRetry fn mr bd).delays.length = mr - 1 ∧
        (withRetry fn mr bd).result = .error e) := by
  constructor
  · intro α fn mr bd e hmr h hre
    obtain ⟨k, rfl⟩ : ∃ k, mr = k + 1 := ⟨mr - 1, by omega⟩
    exact withRetryFrom_err_noretry fn (k + 1) bd 1 k e h hre
  · intro α fn mr bd e hmr hall hlast
    exact withRetryFrom_exhaust fn mr bd e hlast mr 1 (by omega) hmr hall

/-- Witness for C9: a non-retryable failure "boom" raises after one call
with no delay, and a 2-attempt run whose both attempts fail re-raises the
final failure after a single wait. -/
theorem c9_retry_raise_behaviour_witness :
    withRetry (fun _ => (.error "boom" : Except String Nat)) 3 2000 = ⟨1, [], .error "boom"⟩ ∧
    (withRetry (fun n => if n = 1 then .error "429" else (.error "boom2" : Except String Nat))
        2 2000).calls = 2 ∧
    (withRetry (fun n => if n = 1 then .error "429" else (.error "boom2" : Except String Nat))
        2 2000).delays.length = 1 ∧
    (withRetry (fun n => if n = 1 then .error "429" else (.error "boom2" : Except String Nat))
        2 2000).result = .error "boom2" :=
  ⟨c9_retry_raise_behaviour.1 Nat (fun _ => .error "boom") 3 2000 "boom"
      (by decide) rfl (by decide),
   c9_retry_raise_behaviour.2 Nat
      (fun n => if n = 1 then .error "429" else .error "boom2") 2 2000 "boom2"
      (by decide)
      (fun k hk1 hk2 => ⟨"429", by
        have hk : k = 1 := by omega
        rw [hk]
        rfl, by decide⟩)
      rfl⟩

/-- Claim C10: with maxRetries below 1 the retry loop body never runs, so
withRetry returns undefined without invoking the operation; the classifier
then throws reading `.choices` of the undefined completion, and its catch
handler returns a DISQUALIFY record with score 0 whose reason starts with
"Error: ". -/
theorem c10_zero_max_retries {α : Type} (fn : Nat → Except String α) (bd : Nat)
    (url content : String) (attempts : Nat → Except String CompletionObj)
    (mr : Nat) (hmr : mr < 1) (hlen : 20 ≤ content.length) :
    withRetry fn mr bd = ⟨0, [], .ok none⟩ ∧
    qualifyWebsite url content attempts mr =
      { url := url, verdict := .str "DISQUALIFY", score := 0,
        reason := .str ("Error: " ++ "Cannot read properties of undefined (reading choices)") } ∧
    jsStartsWith ("Error: " ++ "Cannot read properties of undefined (reading choices)")
      "Error: " = true := by
  obtain rfl : mr = 0 := by omega
  have hne : content ≠ "" := fun h => absurd (h ▸ hlen) (by decide)
  have hcond : (content == "" || decide (content.length < 20)) = false := by
    simp [hne]
    omega
  refine ⟨withRetryFrom_zero fn 0 bd 1, ?_, by decide⟩
  unfold qualifyWebsite qualifyTry
  rw [show withRetry attempts 0 2000 = ⟨0, [], .ok none⟩ from withRetryFrom_zero attempts 0 2000 1]
  simp [hcond, qualifyCatch]

/-- Witness for C10 at maxRetries = 0 and a 26-character content. -/
theorem c10_zero_max_retries_witness :
    withRetry (fun _ => (.ok 0 : Except String Nat)) 0 2000 = ⟨0, [], .ok none⟩ ∧
    qualifyWebsite "https://x.com" "a sufficiently long content"
      (fun _ => .error "unused") 0 =
      { url := "https://x.com", verdict := .str "DISQUALIFY", score := 0,
        reason := .str ("Error: " ++ "Cannot read properties of undefined (reading choices)") } :=
  ⟨(c10_zero_max_retries (fun _ => (.ok 0 : Except String Nat)) 2000 "https://x.com"
      "a sufficiently long content" (fun _ => .error "unused") 0 (by decide) (by decide)).1,
   (c10_zero_max_retries (fun _ => (.ok 0 : Except String Nat)) 2000 "https://x.com"
      "a sufficiently long content" (fun _ => .error "unused") 0 (by decide) (by decide)).2.1⟩

/-- Claim C7: the classifier never raises to its caller — for every URL,
content string and sequence of model-call outcomes (success, transport
error, retry exhaustion, unparseable response), the embedded
`qualifyWebsite` with its try/catch in place produces an `Except.ok`
ClassificationResult, never a propagated `Except.error`; termination is
by construction, every Lean function being total. -/
theorem c7_classifier_never_raises (url content : String)
    (attempts : Nat → Except String CompletionObj) (mr : Nat) :
    ∃ r, qualifyWebsiteE url content attempts mr = .ok r := by
  unfold qualifyWebsiteE
  cases h : qualifyTry url content attempts mr with
  | ok r => exact ⟨r, rfl⟩
  | error e => exact ⟨qualifyCatch url e, rfl⟩

/-- Concrete attempts function for the C1 counterexample: the model
responds with a well-formed JSON object whose score is 11. -/
def c1attempts : Nat → Except String CompletionObj := fun _ =>
  .ok (some (.parses ⟨some (.str "QUALIFY"), some (.num 11), some (.str "fits")⟩))

/-- Claim C1, counterexample: a model response with score 11 yields a
ClassificationResult whose score is 11 — outside [0,10] and not collapsed
to 0, so the claimed invariant fails. -/
theorem c1_counterexample :
    (qualifyWebsite "https://x.com" "a sufficiently long content description"
      c1attempts 3).score = 11 ∧
    ¬ ((qualifyWebsite "https://x.com" "a sufficiently long content description"
      c1attempts 3).score ≤ 10) := by
  decide

/-- Claim C1 (amended): for a ClassificationResult produced from a parsed
model response, score is exactly what JS parseInt extracts from the
response's score field when that is numeric — even outside [0,10] — and
collapses to 0 exactly when the field is missing or non-numeric; the
range is not enforced. -/
theorem c1_score_mapping (url content : String) (obj : RespObj)
    (attempts : Nat → Except String CompletionObj) (mr : Nat)
    (hlen : 20 ≤ content.length) (hmr : 1 ≤ mr)
    (hat : attempts 1 = .ok (some (.parses obj))) :
    (jsParseInt obj.score = none → (qualifyWebsite url content attempts mr).score = 0) ∧
    (∀ n : Int, jsParseInt obj.score = some n →
      (qualifyWebsite url content attempts mr).score = n) := by
  have hne : content ≠ "" := fun h => absurd (h ▸ hlen) (by decide)
  have hcond : (content == "" || decide (content.length < 20)) = false := by
    simp [hne]
    omega
  have hmain : qualifyWebsite url content attempts mr = mapParsed url obj := by
    unfold qualifyWebsite qualifyTry
    rw [withRetry_first_ok attempts mr 2000 _ hmr hat]
    simp [hcond]
  rw [hmain]
  constructor
  · intro h
    simp [mapParsed, scoreOf, h]
  · intro n h
    by_cases hn : n = 0
    · simp [mapParsed, scoreOf, h, hn]
    · simp [mapParsed, scoreOf, h, hn]

/-- Concrete attempts function for the C1 witness: the model responds
with a well-formed JSON object whose score is the string "7". -/
def c1wattempts : Nat → Except String CompletionObj := fun _ =>
  .ok (some (.parses ⟨some (.str "QUALIFY"), some (.str "7"), some (.str "fits")⟩))

/-- Witness for C1: a score field holding the string "7" maps to 7. -/
theorem c1_score_mapping_witness :
    (qualifyWebsite "https://x.com" "a sufficiently long content description"
      c1wattempts 3).score = 7 :=
  (c1_score_mapping "https://x.com" "a sufficiently long content description"
    ⟨some (.str "QUALIFY"), some (.str "7"), some (.str "fits")⟩
    c1wattempts 3 (by decide) (by decide) rfl).2 7 (by decide)

/-! Lemmas about the orchestrator loop. -/

lemma qualifyTry_url (url content : String)
    (attempts : Nat → Except String CompletionObj) (mr : Nat)
    (r : ClassificationResult) (h : qualifyTry url content attempts mr = .ok r) :
    r.url = url := by
  unfold qualifyTry at h
  split at h
  · cases h
    rfl
  · split at h
    · cases h
    · cases h
    · split at h
      · cases h
      · split at h
        · cases h
          rfl
        · cases h
          rfl
        · cases h

lemma qualifyWebsite_url (url content : String)
    (attempts : Nat → Except String CompletionObj) (mr : Nat) :
    (qualifyWebsite url content attempts mr).url = url := by
  unfold qualifyWebsite
  cases h : qualifyTry url content attempts mr with
  | ok r => exact qualifyTry_url url content attempts mr r h
  | error e => rfl

lemma processUrl_url (url : String) (e : UrlEnv) (mr : Nat) :
    (processUrl url e mr).url = url := by
  unfold processUrl
  dsimp only
  split
  · exact qualifyWebsite_url url _ e.attempts mr
  · rfl

lemma mainLoop_snd_eq_fst (env : Nat → UrlEnv) (mr : Nat) :
    ∀ (l : List String) (i : Nat), (mainLoop env mr l i).2 = (mainLoop env mr l i).1 := by
  intro l
  induction l with
  | nil => intro i; rfl
  | cons u rest ih => intro i; simp [mainLoop, ih]

lemma mainLoop_fst_map_url (env : Nat → UrlEnv) (mr : Nat) :
    ∀ (l : List String) (i : Nat),
      (mainLoop env mr l i).1.map ClassificationResult.url = l := by
  intro l
  induction l with
  | nil => intro i; rfl
  | cons u rest ih =>
    intro i
    simp [mainLoop, processUrl_url, ih]

lemma mainLoop_fst_length (env : Nat → UrlEnv) (mr : Nat)
    (l : List String) (i : Nat) : (mainLoop env mr l i).1.length = l.length := by
  have h := mainLoop_fst_map_url env mr l i
  calc (mainLoop env mr l i).1.length
      = ((mainLoop env mr l i).1.map ClassificationResult.url).length :=
        (List.length_map _ _).symm
    _ = l.length := by rw [h]

/-- The QUALIFY and DISQUALIFY filters count disjoint subsets. -/
lemma filter_verdict_le (l : List ClassificationResult) :
    (l.filter (fun r => r.verdict == JsonVal.str "QUALIFY")).length +
    (l.filter (fun r => r.verdict == JsonVal.str "DISQUALIFY")).length ≤ l.length := by
  induction l with
  | nil => simp
  | cons a t ih =>
    rcases hq : (a.verdict == JsonVal.str "QUALIFY") with _ | _
    · rcases hd : (a.verdict == JsonVal.str "DISQUALIFY") with _ | _
      · simp [List.filter_cons, hq, hd]
        omega
      · simp [List.filter_cons, hq, hd]
        omega
    · have hveq : a.verdict = JsonVal.str "QUALIFY" := by
        exact eq_of_beq hq
      have hd : (a.verdict == JsonVal.str "DISQUALIFY") = false := by
        rw [hveq]
        decide
      simp [List.filter_cons, hq, hd]
      omega

/-- When every verdict is QUALIFY or DISQUALIFY the two filters partition
the list. -/
lemma filter_verdict_partition (l : List ClassificationResult)
    (h : ∀ r ∈ l, r.verdict = JsonVal.str "QUALIFY" ∨ r.verdict = JsonVal.str "DISQUALIFY") :
    (l.filter (fun r => r.verdict == JsonVal.str "QUALIFY")).length +
    (l.filter (fun r => r.verdict == JsonVal.str "DISQUALIFY")).length = l.length := by
  induction l with
  | nil => simp
  | cons a t ih =>
    have ha := h a (by simp)
    have ht := ih (fun r hr => h r (by simp [hr]))
    rcases ha with ha | ha
    · have hq : (a.verdict == JsonVal.str "QUALIFY") = true := by rw [ha]; decide
      have hd : (a.verdict == JsonVal.str "DISQUALIFY") = false := by rw [ha]; decide
      simp [List.filter_cons, hq, hd]
      omega
    · have hq : (a.verdict == JsonVal.str "QUALIFY") = false := by rw [ha]; decide
      have hd : (a.verdict == JsonVal.str "DISQUALIFY") = true := by rw [ha]; decide
      simp [List.filter_cons, hq, hd]
      omega

/-- Concrete environment for the C2 counterexample: the page scrapes
successfully and the model answers with the verdict "MAYBE", which the
source passes through unvalidated. -/
def c2xenv : Nat → UrlEnv := fun _ =>
  ⟨.page ⟨"Acme", "", "", "",
      "This product is a cold outreach automation platform for B2B sales teams.", ""⟩,
   fun _ => .ok (some (.parses
      ⟨some (.str "MAYBE"), some (.num 5), some (.str "partial fit")⟩))⟩

/-- Claim C2, counterexample: one URL whose model response carries the
verdict "MAYBE" produces a summary with total 1 but qualified 0 and
disqualified 0, so qualified + disqualified differs from total. -/
theorem c2_counterexample :
    ¬ ((mainRun ["acme.com"] c2xenv 3).1.qualified +
       (mainRun ["acme.com"] c2xenv 3).1.disqualified =
       (mainRun ["acme.com"] c2xenv 3).1.total) := by
  decide

/-- Claim C2 (amended): in every run, qualified + disqualified is at most
the total, with equality whenever every produced result carries the
verdict QUALIFY or DISQUALIFY (any other verdict value passed through
from the model is counted in neither bucket). -/
theorem c2_summary_counts (urls : List String) (env : Nat → UrlEnv) (mr : Nat) :
    (mainRun urls env mr).1.qualified + (mainRun urls env mr).1.disqualified ≤
      (mainRun urls env mr).1.total ∧
    ((∀ r ∈ (mainRun urls env mr).1.results,
        r.verdict = JsonVal.str "QUALIFY" ∨ r.verdict = JsonVal.str "DISQUALIFY") →
      (mainRun urls env mr).1.qualified + (mainRun urls env mr).1.disqualified =
        (mainRun urls env mr).1.total) := by
  have hlen := mainLoop_fst_length env mr urls 0
  constructor
  · show ((mainLoop env mr urls 0).1.filter _).length +
        ((mainLoop env mr urls 0).1.filter _).length ≤ urls.length
    rw [← hlen]
    exact filter_verdict_le _
  · intro h
    show ((mainLoop env mr urls 0).1.filter _).length +
        ((mainLoop env mr urls 0).1.filter _).length = urls.length
    rw [← hlen]
    exact filter_verdict_partition _ h

/-- Concrete environment for the C2 witness: same page, but the model
answers QUALIFY. -/
def c2wenv : Nat → UrlEnv := fun _ =>
  ⟨.page ⟨"Acme", "", "", "",
      "This product is a cold outreach automation platform for B2B sales teams.", ""⟩,
   fun _ => .ok (some (.parses
      ⟨some (.str "QUALIFY"), some (.num 9), some (.str "direct competitor")⟩))⟩

/-- Witness for C2 on a run whose single verdict is QUALIFY. -/
theorem c2_summary_counts_witness :
    (mainRun ["acme.com"] c2wenv 3).1.qualified +
    (mainRun ["acme.com"] c2wenv 3).1.disqualified =
    (mainRun ["acme.com"] c2wenv 3).1.total :=
  (c2_summary_counts ["acme.com"] c2wenv 3).2 (by decide)

/-- Concrete environment for the C3 counterexample: extraction fails with
a timeout error. -/
def c3xenv : Nat → UrlEnv := fun _ =>
  ⟨.fail "Timeout 30000ms exceeded", fun _ => .error "unused"⟩

/-- Claim C3, counterexample: on input "badsite.invalid" with a scrape
timeout, the persisted result keeps the raw input URL "badsite.invalid"
(the catch branch of scrapeWebsite and the orchestrator both use the
unnormalized url), not "https://badsite.invalid" as claimed. -/
theorem c3_counterexample :
    (mainRun ["badsite.invalid"] c3xenv 3).1.results.map ClassificationResult.url =
      ["badsite.invalid"] ∧
    ("badsite.invalid" : String) ≠ "https://badsite.invalid" := by
  decide

/-- Claim C3 (amended): for input ["badsite.invalid"] where extraction
fails with a timeout message m, the summary is total 1, qualified 0,
disqualified 1, and the single result has the raw url "badsite.invalid",
verdict DISQUALIFY, score 0, and a reason containing the scrape error
text "Scraping failed: " followed by m. -/
theorem c3_badsite_scenario (m : String) :
    (mainRun ["badsite.invalid"] (fun _ => ⟨.fail m, fun _ => .error "unused"⟩) 3).1.total = 1 ∧
    (mainRun ["badsite.invalid"] (fun _ => ⟨.fail m, fun _ => .error "unused"⟩) 3).1.qualified = 0 ∧
    (mainRun ["badsite.invalid"] (fun _ => ⟨.fail m, fun _ => .error "unused"⟩) 3).1.disqualified = 1 ∧
    (mainRun ["badsite.invalid"] (fun _ => ⟨.fail m, fun _ => .error "unused"⟩) 3).1.results =
      [{ url := "badsite.invalid", verdict := .str "DISQUALIFY", score := 0,
         reason := .str ("Website inaccessible or no product description found. Error: "
           ++ ("Scraping failed: " ++ m)) }] :=
  ⟨rfl, rfl, rfl, rfl⟩

/-- Concrete environment for the C6 witness: one URL whose scrape fails. -/
def c6wenv : Nat → UrlEnv := fun _ => ⟨.fail "net down", fun _ => .error "unused"⟩

/-- Claim C6: every run appends exactly one record to the dataset per
input URL, and the i-th persisted record carries the i-th input URL —
in particular a scrape or classification failure on one URL never aborts
the run or drops records of other URLs. -/
theorem c6_one_record_per_url (urls : List String) (env : Nat → UrlEnv) (mr : Nat)
    (h : urls ≠ []) :
    (mainRun urls env mr).2.length = urls.length ∧
    (mainRun urls env mr).2.map ClassificationResult.url = urls := by
  have h2 : (mainRun urls env mr).2 = (mainLoop env mr urls 0).1 :=
    mainLoop_snd_eq_fst env mr urls 0
  rw [h2]
  exact ⟨mainLoop_fst_length env mr urls 0, mainLoop_fst_map_url env mr urls 0⟩

/-- Witness for C6 on the nonempty input list ["a.com"]. -/
theorem c6_one_record_per_url_witness :
    (mainRun ["a.com"] c6wenv 3).2.length = 1 ∧
    (mainRun ["a.com"] c6wenv 3).2.map ClassificationResult.url = ["a.com"] :=
  c6_one_record_per_url ["a.com"] c6wenv 3 (by decide)

end Qualifier
